import Mathlib

/-!
Shallow embedding of `src/xbox360iso.py` (class `Xbox360ISO`): an Xbox 360
disc-image metadata extractor.  The embedding models

* the disc image as a `ByteSource` (a random-access byte function plus a size,
  mirroring a seekable read-only file: Python `read(n)` past the end returns
  the available prefix, never erroring);
* `check_iso` (source lines 70-95): container-format detection and layout
  header decoding;
* `extract_defaultxex` (lines 97-119): the flat root-directory scan for the
  entry named `default.xex` plus the raw extraction of its bytes;
* `extract_xex_info` (lines 121-172): XEX2 executable-header validation, the
  header-entry-table scan, and execution-info decoding;
* `parse` (lines 43-68): the pipeline.  Python signals stage failure by
  returning `False` and catches every exception raised inside the pipeline,
  turning it into `None`; the embedding gives each stage an `Except ParseError`
  result (exceptions such as `struct.error`, negative-seek `ValueError` and
  `ord` on empty bytes are modelled as `ParseError.IOError`, the spec's name
  for short-read/seek failures) and `parse` an `Option` result.

`sys.getsizeof(xex_buffer)` (line 129) is a CPython memory-footprint value
that is not a function of the buffer's byte content; it enters the model as
an explicit `objSize` parameter (and `parse` takes a `getsizeof` function).
-/

set_option maxRecDepth 16384

inductive ParseError where
  | UnsupportedLegacyFormat
  | UnknownContainerFormat
  | EntryNotFound
  | IOError
  | BadMagic
  | CodeOffsetBeyondSize
  | CertOffsetInvalid
  | HeaderTableOverflow
  | ExecutionInfoNotFound
deriving DecidableEq, Repr

/-- A random-access byte source of known size (the opened disc-image file). -/
structure ByteSource where
  data : Nat → Nat
  size : Nat

/-- The number of bytes `f.seek(pos); f.read(n)` actually returns:
`min n (s.size - pos)`, written with guarding comparisons first. -/
def readLen (s : ByteSource) (pos n : Nat) : Nat :=
  if s.size ≤ pos then 0
  else if pos + n ≤ s.size then n
  else s.size - pos

/-- Python `f.seek(pos); f.read(n)`: the bytes from `pos` up to
`pos + min n (size - pos)`. -/
def readBytes (s : ByteSource) (pos n : Nat) : List Nat :=
  (List.range (readLen s pos n)).map (fun i => s.data (pos + i))

/-- File position after `read(n)` starting at `pos` (reads clamp at EOF). -/
def posAfter (s : ByteSource) (pos n : Nat) : Nat :=
  pos + readLen s pos n

/-- `bytes.decode("ascii", "ignore")`: bytes ≥ 0x80 are dropped, the rest
become their ASCII characters. -/
def decodeAsciiIgnore (bs : List Nat) : String :=
  ⟨(bs.filter (fun b => b < 128)).map Char.ofNat⟩

/-- Python `str.lower()` on the ASCII strings produced here. -/
def lowerAscii (t : String) : String :=
  ⟨t.data.map Char.toLower⟩

/-- A read of `n` bytes at position `pos` of an in-memory buffer
(`io.BytesIO`: `seek(pos); read(n)`). -/
def bufRead (buf : List Nat) (pos n : Nat) : List Nat :=
  (buf.drop pos).take n

/-- Buffer position after reading `n` bytes at `pos` (clamped at the end). -/
def posAfterL (buf : List Nat) (pos n : Nat) : Nat :=
  pos + min n (buf.length - pos)

/-- `unpack('I', ·)` value of a 4-byte little-endian field. -/
def le32 (l : List Nat) : Nat :=
  l.getD 0 0 + l.getD 1 0 * 0x100 + l.getD 2 0 * 0x10000 + l.getD 3 0 * 0x1000000

/-- `unpack('I', read(4))`: `struct.error` (here `none`) unless exactly 4
bytes were available. -/
def le32? (l : List Nat) : Option Nat :=
  if l.length = 4 then some (le32 l) else none

/-- `unpack('>I', ·)` value of a 4-byte big-endian field. -/
def be32 (l : List Nat) : Nat :=
  l.getD 0 0 * 0x1000000 + l.getD 1 0 * 0x10000 + l.getD 2 0 * 0x100 + l.getD 3 0

/-- `unpack('>I', read(4))`: fails unless exactly 4 bytes were available. -/
def be32? (l : List Nat) : Option Nat :=
  if l.length = 4 then some (be32 l) else none

/-- `ord(read(1))`: `TypeError` (here `none`) unless exactly one byte. -/
def byte1? (l : List Nat) : Option Nat :=
  if l.length = 1 then some (l.getD 0 0) else none

/-- One uppercase hexadecimal digit. -/
def hexDigit (n : Nat) : Char :=
  if n < 10 then Char.ofNat (48 + n) else Char.ofNat (55 + n)

/-- `binascii.hexlify(bs).decode("ascii").upper()`. -/
def toHexUpper (bs : List Nat) : String :=
  ⟨bs.foldr (fun b acc => hexDigit (b / 16 % 16) :: hexDigit (b % 16) :: acc) []⟩

/-- `self.iso_type` (line 18) and the fixed sector size (line 71). -/
def sector_size : Nat := 0x800

def iso_type_GDF : Nat := 0xfd90000

def iso_type_XGD3 : Nat := 0x2080000

def iso_type_XSF : Nat := 0

/-- Does the 20-byte region at `0x20 * sector_size + base` decode to the
container magic (lines 72-73, 78-79, 82-83)? -/
def magicAt (s : ByteSource) (base : Nat) : Bool :=
  decodeAsciiIgnore (readBytes s (0x20 * sector_size + base) 20) == "MICROSOFT*XBOX*MEDIA"

/-- The fields stored in `iso_info` by `check_iso` (lines 70-95).
`volume_sectors` is Python float division `volume_size / sector_size`,
exact for any real file size, hence modelled as a rational. -/
structure IsoInfo where
  sector_size : Nat
  root_offset : Nat
  identifier : String
  root_dir_sector : Nat
  root_dir_size : Nat
  image_size : Nat
  volume_size : Int
  volume_sectors : Rat
deriving DecidableEq, Repr

/-- Lines 70-87: pick the container base offset, probing the legacy (XSF)
offset, then GDF, then XGD3. -/
def detect_root_offset (s : ByteSource) : Except ParseError Nat :=
  if magicAt s iso_type_XSF then .error .UnsupportedLegacyFormat
  else if magicAt s iso_type_GDF then .ok iso_type_GDF
  else if magicAt s iso_type_XGD3 then .ok iso_type_XGD3
  else .error .UnknownContainerFormat

/-- Lines 88-95: after detection, re-seek to the accepted offset, read the
20-byte identifier and the two little-endian u32 fields that follow, and
fill in the derived sizes. -/
def read_iso_header (s : ByteSource) (root_offset : Nat) : Except ParseError IsoInfo :=
  let p0 := 0x20 * sector_size + root_offset
  let identBytes := readBytes s p0 20
  let p1 := posAfter s p0 20
  let p2 := posAfter s p1 4
  match le32? (readBytes s p1 4), le32? (readBytes s p2 4) with
  | some root_dir_sector, some root_dir_size =>
      .ok { sector_size := sector_size
            root_offset := root_offset
            identifier := decodeAsciiIgnore identBytes
            root_dir_sector := root_dir_sector
            root_dir_size := root_dir_size
            image_size := s.size
            volume_size := (s.size : Int) - (root_offset : Int)
            volume_sectors := (((s.size : Int) - (root_offset : Int) : Int) : Rat) / ((0x800 : Nat) : Rat) }
  | _, _ => .error .IOError

/-- Lines 70-95: `check_iso`. -/
def check_iso (s : ByteSource) : Except ParseError IsoInfo :=
  match detect_root_offset s with
  | .error e => .error e
  | .ok root_offset => read_iso_header s root_offset

/-- Lines 105-108: does scan position `i` of the root-directory buffer match?
Byte `i` is read and discarded, byte `i+1` must be the name length 11
(`int.from_bytes` of an empty read is 0), and the next 11 bytes must
case-insensitively decode to `default.xex`. -/
def dirEntryMatch (rootBuf : List Nat) (i : Nat) : Bool :=
  rootBuf.getD (i + 1) 0 == 11 &&
    lowerAscii (decodeAsciiIgnore (bufRead rootBuf (i + 2) 11)) == "default.xex"

/-- The `for i in range(0, root_dir_size - 12)` loop: first matching
position at or after `i`, with `fuel` positions left to try. -/
def scanFromPos (rootBuf : List Nat) : Nat → Nat → Option Nat
  | 0, _ => none
  | fuel + 1, i => if dirEntryMatch rootBuf i then some i else scanFromPos rootBuf fuel (i + 1)

/-- Lines 104-111: scan the root-directory buffer and decode the matched
entry's `file_sector` and `file_size` (little-endian u32 values at `i - 8`
and `i - 4`).  A match at `i < 8` makes Python execute `seek(i - 8)` with a
negative argument, raising `ValueError` (modelled as `IOError`). -/
def findDirEntry (rootBuf : List Nat) (root_dir_size : Nat) : Except ParseError (Nat × Nat) :=
  match scanFromPos rootBuf (root_dir_size - 12) 0 with
  | none => .error .EntryNotFound
  | some i =>
    if i < 8 then .error .IOError
    else
      match le32? (bufRead rootBuf (i - 8) 4), le32? (bufRead rootBuf (i - 4) 4) with
      | some file_sector, some file_size => .ok (file_sector, file_size)
      | _, _ => .error .IOError

/-- Line 99-101: the raw root-directory region. -/
def rootBufOf (s : ByteSource) (info : IsoInfo) : List Nat :=
  readBytes s (info.root_dir_sector * info.sector_size + info.root_offset) info.root_dir_size

/-- Lines 97-119: `extract_defaultxex`.  Locate the directory entry, then
read `file_size` bytes at `root_offset + file_sector * sector_size` (the
read is clamped at EOF: Python performs no short-read check here). -/
def extract_defaultxex (s : ByteSource) (info : IsoInfo) : Except ParseError (List Nat) :=
  match findDirEntry (rootBufOf s info) info.root_dir_size with
  | .error e => .error e
  | .ok (file_sector, file_size) =>
      .ok (readBytes s (info.root_offset + file_sector * info.sector_size) file_size)

/-- The fields stored in `xex_info` by `extract_xex_info` (lines 156-165). -/
structure XexInfo where
  media_id : String
  version : Nat
  base_version : Nat
  title_id : String
  platform : Nat
  executable_type : Nat
  disc_number : Nat
  disc_count : Nat
deriving DecidableEq, Repr

/-- `unpack('>I', bytes([0x00, 0x04, 0x00, 0x06]))` (lines 146, 151). -/
def execution_info_table_flags : Nat := 0x00040006

/-- Lines 148-154: the header-entry-table loop.  Each iteration reads a
big-endian u32 id; on the target id the paired value is read with `unpack`
(so a short read raises) and overwrites the accumulator, otherwise the value
bytes are skipped with a bare `read(4)` (which cannot raise, but clamps the
position at the end of the buffer). -/
def scanEntries (buf : List Nat) : Nat → Nat → Option Nat → Except ParseError (Option Nat)
  | 0, _, acc => .ok acc
  | fuel + 1, pos, acc =>
    match be32? (bufRead buf pos 4) with
    | none => .error .IOError
    | some header_id =>
      if header_id = execution_info_table_flags then
        match be32? (bufRead buf (pos + 4) 4) with
        | none => .error .IOError
        | some addr => scanEntries buf fuel (pos + 8) (some addr)
      else
        scanEntries buf fuel (posAfterL buf (pos + 4) 4) acc

/-- Characterization of the header-entry-table loop when every record lies
inside the buffer: the accumulator after visiting `fuel` 8-byte records
starting at `pos` — each record with the target id overwrites it with the
record's value, so the last matching record wins. -/
def lastMatchFrom (buf : List Nat) : Nat → Nat → Option Nat → Option Nat
  | 0, _, acc => acc
  | fuel + 1, pos, acc =>
      lastMatchFrom buf fuel (pos + 8)
        (if be32 (bufRead buf pos 4) = execution_info_table_flags
         then some (be32 (bufRead buf (pos + 4) 4)) else acc)

/-- Lines 156-165: decode the 20-byte execution-info record at `addr`.
`media_id` and `title_id` are hexlified (short reads hexlify what came and
make the following `unpack`/`ord` fail), the u32 fields are big-endian, the
final four fields are single bytes read with `ord`. -/
def decodeExecInfo (buf : List Nat) (addr : Nat) : Except ParseError XexInfo :=
  let mediaBytes := bufRead buf addr 4
  let p1 := posAfterL buf addr 4
  match be32? (bufRead buf p1 4) with
  | none => .error .IOError
  | some version =>
    match be32? (bufRead buf (p1 + 4) 4) with
    | none => .error .IOError
    | some base_version =>
      let titleBytes := bufRead buf (p1 + 8) 4
      let p4 := posAfterL buf (p1 + 8) 4
      match byte1? (bufRead buf p4 1) with
      | none => .error .IOError
      | some platform =>
        match byte1? (bufRead buf (p4 + 1) 1) with
        | none => .error .IOError
        | some executable_type =>
          match byte1? (bufRead buf (p4 + 2) 1) with
          | none => .error .IOError
          | some disc_number =>
            match byte1? (bufRead buf (p4 + 3) 1) with
            | none => .error .IOError
            | some disc_count =>
              .ok { media_id := toHexUpper mediaBytes
                    version := version
                    base_version := base_version
                    title_id := toHexUpper titleBytes
                    platform := platform
                    executable_type := executable_type
                    disc_number := disc_number
                    disc_count := disc_count }

/-- Lines 121-172: `extract_xex_info`.  `objSize` stands for
`sys.getsizeof(xex_buffer)` (line 129), a memory-footprint value that is not
determined by the buffer's bytes and therefore enters as a parameter. -/
def extract_xex_info (objSize : Nat) (buf : List Nat) : Except ParseError XexInfo :=
  if decodeAsciiIgnore (bufRead buf 0 4) = "XEX2" then
    match be32? (bufRead buf 0x08 4) with
    | none => .error .IOError
    | some code_offset =>
      if code_offset > objSize then .error .CodeOffsetBeyondSize
      else
        match be32? (bufRead buf 0x10 4) with
        | none => .error .IOError
        | some cert_offset =>
          if cert_offset > code_offset then .error .CertOffsetInvalid
          else
            match be32? (bufRead buf 0x14 4) with
            | none => .error .IOError
            | some info_table_num_entries =>
              if info_table_num_entries * 8 + 24 > code_offset then .error .HeaderTableOverflow
              else
                match scanEntries buf info_table_num_entries 0x18 none with
                | .error e => .error e
                | .ok none => .error .ExecutionInfoNotFound
                | .ok (some addr) => decodeExecInfo buf addr
  else .error .BadMagic

/-- The combined `props` dictionary returned by a successful `parse`
(lines 58-65): every `iso_info` field, every `xex_info` field, plus the
resolved `game_name`. -/
structure GameProps where
  iso : IsoInfo
  xex : XexInfo
  game_name : String
deriving DecidableEq, Repr

/-- Lines 43-68: `parse`.  Every stage failure (a Python `False` return or
an exception caught by the surrounding `try`) yields `none`; on success the
game name is looked up by `title_id`, defaulting to `"Unknown"`. -/
def parse (getsizeof : List Nat → Nat) (game_lookup : String → Option String)
    (s : ByteSource) : Option GameProps :=
  match check_iso s with
  | .error _ => none
  | .ok iso_info =>
    match extract_defaultxex s iso_info with
    | .error _ => none
    | .ok xex_buffer =>
      match extract_xex_info (getsizeof xex_buffer) xex_buffer with
      | .error _ => none
      | .ok xex_info =>
          some { iso := iso_info
                 xex := xex_info
                 game_name := (game_lookup xex_info.title_id).getD "Unknown" }

/-! ## Concrete inputs used by witnesses and counterexamples -/

/-- The container magic as a byte list. -/
def magicBytes : List Nat := "MICROSOFT*XBOX*MEDIA".data.map Char.toNat

/-- A disc image holding the container magic at `0x20 * sector_size + b` for
each base `b` in `bases`, zero bytes elsewhere. -/
def mkMagicSource (bases : List Nat) (size : Nat) : ByteSource where
  size := size
  data := fun j =>
    match bases.find? (fun b => decide (0x10000 + b ≤ j ∧ j < 0x10000 + b + 20)) with
    | some b => magicBytes.getD (j - (0x10000 + b)) 0
    | none => 0

/-- Image with the magic at the legacy offset and at the GDF offset. -/
def srcLegacyAndGDF : ByteSource := mkMagicSource [0, 0xfd90000] 0xfdb0000

/-- Image with the magic at the GDF and XGD3 offsets but not the legacy one. -/
def srcGDFAndXGD3 : ByteSource := mkMagicSource [0xfd90000, 0x2080000] 0xfdb0000

/-- Image with the magic only at the XGD3 offset. -/
def srcXGD3Only : ByteSource := mkMagicSource [0x2080000] 0xfdb0000

/-- Image with the magic at no probed offset. -/
def srcNoMagic : ByteSource := mkMagicSource [] 0xfdb0000

/-- `default.xex` as a byte list. -/
def defaultXexBytes : List Nat := "default.xex".data.map Char.toNat

/-- Root-directory region whose first (and only) scan match is at position 0:
byte 1 is the name length 11 and bytes 2-12 spell `default.xex`. -/
def rootBufMatchAt0 : List Nat := 0 :: 11 :: defaultXexBytes

/-- Root-directory region whose first scan match is at position 8, with
`file_sector = 1` (little-endian at byte 0) and `file_size = 100`
(little-endian at byte 4); padded to 32 bytes. -/
def rootBufMatchAt8 : List Nat :=
  [1, 0, 0, 0, 100, 0, 0, 0, 0, 11] ++ defaultXexBytes ++ List.replicate 11 0

/-- A 32-byte disc image whose root directory (sector 0, base offset 0,
size 21) matches at position 8 with `file_sector = 1`, `file_size = 100`;
sector 1 starts at byte 0x800, past the end of the image. -/
def srcShortFile : ByteSource where
  size := 32
  data := fun j => ([1, 0, 0, 0, 100, 0, 0, 0, 0, 11] ++ defaultXexBytes).getD j 0

/-- The `iso_info` fed to `extract_defaultxex` for `srcShortFile`. -/
def infoShortFile : IsoInfo where
  sector_size := 0x800
  root_offset := 0
  identifier := "MICROSOFT*XBOX*MEDIA"
  root_dir_sector := 0
  root_dir_size := 21
  image_size := 32
  volume_size := 32
  volume_sectors := (32 : Rat) / (0x800 : Rat)

/-- A XEX2 header whose `cert_offset` (0x200, big-endian at 0x10) exceeds its
`code_offset` (0x100, big-endian at 0x08). -/
def xexBufBadCert : List Nat :=
  [0x58, 0x45, 0x58, 0x32, 0, 0, 0, 0, 0, 0, 1, 0, 0, 0, 0, 0,
   0, 0, 2, 0, 0, 0, 0, 0]

/-- A XEX2 header whose entry table (4 entries) would overrun its
`code_offset` (0x20): `4 * 8 + 24 = 56 > 0x20`. -/
def xexBufOverflow : List Nat :=
  [0x58, 0x45, 0x58, 0x32, 0, 0, 0, 0, 0, 0, 0, 0x20, 0, 0, 0, 0,
   0, 0, 0, 0x10, 0, 0, 0, 4]

/-- A valid XEX2 header with two table entries, neither carrying the
execution-info id. -/
def xexBufNoExecEntry : List Nat :=
  [0x58, 0x45, 0x58, 0x32, 0, 0, 0, 0, 0, 0, 1, 0, 0, 0, 0, 0,
   0, 0, 0, 0x20, 0, 0, 0, 2] ++
  [0, 1, 0, 1, 0, 0, 0, 0x40] ++ [0, 2, 0, 2, 0, 0, 0, 0x50]

/-- A 24-byte buffer that passes every header-validation check
(`code_offset = 0x40`, `cert_offset = 0`, `header_entry_count = 2`, so
`2 * 8 + 24 = 40 ≤ 0x40`) but whose entry table is truncated: the buffer
ends where the table should begin.  `sys.getsizeof` of a 24-byte `BytesIO`
is around 150 (object overhead plus the buffer), so the size check at
line 129 passes as well. -/
def xexBufTruncTable : List Nat :=
  [0x58, 0x45, 0x58, 0x32, 0, 0, 0, 0, 0, 0, 0, 0x40, 0, 0, 0, 0,
   0, 0, 0, 0, 0, 0, 0, 2]

/-- A valid XEX2 header with three table entries: two carry the
execution-info id 0x00040006 with different values (0x30 then 0x40), the
execution-info record at the later value 0x40 decodes title id 4D5307D1,
while the record at 0x30 would decode title id 00000000. -/
def xexBufTwoExecEntries : List Nat :=
  [0x58, 0x45, 0x58, 0x32, 0, 0, 0, 0, 0, 0, 1, 0, 0, 0, 0, 0,
   0, 0, 0, 0x20, 0, 0, 0, 3] ++
  [0, 4, 0, 6, 0, 0, 0, 0x30] ++ [0, 1, 0, 1, 0, 0, 0, 0] ++
  [0, 4, 0, 6, 0, 0, 0, 0x40] ++
  List.replicate 0x10 0 ++
  [0xAA, 0xBB, 0xCC, 0xDD, 0, 0, 0, 5, 0, 0, 0, 3, 0x4D, 0x53, 0x07, 0xD1,
   2, 1, 1, 2]

/-- A valid XEX2 header whose single matching table entry carries the value
0: decoding then starts at buffer offset 0, so `media_id` is the hex of the
magic `XEX2` itself. -/
def xexBufZeroAddr : List Nat :=
  [0x58, 0x45, 0x58, 0x32, 0, 0, 0, 0, 0, 0, 1, 0, 0, 0, 0, 0,
   0, 0, 0, 0x20, 0, 0, 0, 1] ++
  [0, 4, 0, 6, 0, 0, 0, 0]

/-- The synthetic XEX2 file of the round-trip scenario: magic `XEX2`,
`code_offset = 0x100`, `cert_offset = 0x20`, one table entry
`(0x00040006, 0x40)`, and the 20 execution-info bytes at offset 0x40;
512 bytes in total. -/
def xexFileC5 (m0 m1 m2 m3 v0 v1 v2 v3 w0 w1 w2 w3 t0 t1 t2 t3 pl et dn dc : Nat) : List Nat :=
  [0x58, 0x45, 0x58, 0x32, 0, 0, 0, 0, 0, 0, 1, 0, 0, 0, 0, 0,
   0, 0, 0, 0x20, 0, 0, 0, 1] ++
  [0, 4, 0, 6, 0, 0, 0, 0x40] ++
  List.replicate 0x20 0 ++
  [m0, m1, m2, m3, v0, v1, v2, v3, w0, w1, w2, w3, t0, t1, t2, t3, pl, et, dn, dc] ++
  List.replicate 0x1ac 0

/-- Byte `k` of the synthetic XEX2 file. -/
def xexFileC5Byte (m0 m1 m2 m3 v0 v1 v2 v3 w0 w1 w2 w3 t0 t1 t2 t3 pl et dn dc k : Nat) : Nat :=
  (xexFileC5 m0 m1 m2 m3 v0 v1 v2 v3 w0 w1 w2 w3 t0 t1 t2 t3 pl et dn dc).getD k 0

/-- The root-directory region of the synthetic image: one entry,
`file_sector = 0x30`, `file_size = 0x200`, name match at position 8. -/
def rootBufC5 : List Nat :=
  [0x30, 0, 0, 0, 0, 2, 0, 0, 0, 11] ++ defaultXexBytes ++ List.replicate 11 0

/-- The synthetic GDF-layout disc image of the round-trip claim: container
magic at `0x10000 + 0xfd90000`, `root_dir_sector = 0x21` and
`root_dir_size = 0x20` directly after it, the root directory at
`0xfd90000 + 0x21 * 0x800`, and the XEX2 file at sector 0x30
(`0xfd90000 + 0x18000`), everything else zero. -/
def mkImage (m0 m1 m2 m3 v0 v1 v2 v3 w0 w1 w2 w3 t0 t1 t2 t3 pl et dn dc : Nat) : ByteSource where
  size := 0xfda8200
  data := fun j =>
    if j < 0xfda0000 then 0
    else if j < 0xfda0014 then magicBytes.getD (j - 0xfda0000) 0
    else if j = 0xfda0014 then 0x21
    else if j = 0xfda0018 then 0x20
    else if j < 0xfda0800 then 0
    else if j < 0xfda0820 then rootBufC5.getD (j - 0xfda0800) 0
    else if j < 0xfda8000 then 0
    else xexFileC5Byte m0 m1 m2 m3 v0 v1 v2 v3 w0 w1 w2 w3 t0 t1 t2 t3 pl et dn dc (j - 0xfda8000)

/-- The `iso_info` produced for any instance of the synthetic image. -/
def isoInfoC5 : IsoInfo where
  sector_size := 0x800
  root_offset := 0xfd90000
  identifier := "MICROSOFT*XBOX*MEDIA"
  root_dir_sector := 0x21
  root_dir_size := 0x20
  image_size := 0xfda8200
  volume_size := 0x18200
  volume_sectors := ((0x18200 : Int) : Rat) / ((0x800 : Nat) : Rat)

/-! ## Helper lemmas -/

theorem readLen_eq (s : ByteSource) (pos n : Nat) :
    readLen s pos n = min n (s.size - pos) := by
  unfold readLen
  split
  · omega
  · split <;> omega

theorem readBytes_length (s : ByteSource) (pos n : Nat) :
    (readBytes s pos n).length = min n (s.size - pos) := by
  simp [readBytes, readLen_eq]

theorem bufRead_length (l : List Nat) (pos n : Nat) :
    (bufRead l pos n).length = min n (l.length - pos) := by
  simp [bufRead]

theorem be32?_of_le {l : List Nat} {pos : Nat} (h : pos + 4 ≤ l.length) :
    be32? (bufRead l pos 4) = some (be32 (bufRead l pos 4)) := by
  have hl : (bufRead l pos 4).length = 4 := by rw [bufRead_length]; omega
  simp [be32?, hl]

theorem le32?_of_le {l : List Nat} {pos : Nat} (h : pos + 4 ≤ l.length) :
    le32? (bufRead l pos 4) = some (le32 (bufRead l pos 4)) := by
  have hl : (bufRead l pos 4).length = 4 := by rw [bufRead_length]; omega
  simp [le32?, hl]

theorem byte1?_of_le {l : List Nat} {pos : Nat} (h : pos + 1 ≤ l.length) :
    byte1? (bufRead l pos 1) = some ((bufRead l pos 1).getD 0 0) := by
  have hl : (bufRead l pos 1).length = 1 := by rw [bufRead_length]; omega
  simp [byte1?, hl]

theorem posAfterL_of_le {l : List Nat} {pos n : Nat} (h : pos + n ≤ l.length) :
    posAfterL l pos n = pos + n := by
  unfold posAfterL; omega

theorem bufRead_take (l : List Nat) (m pos n : Nat) (h : pos + n ≤ m) :
    bufRead (l.take m) pos n = bufRead l pos n := by
  unfold bufRead
  rw [List.drop_take, List.take_take]
  congr 1
  omega

theorem bufRead_congr {l l' : List Nat} {m pos n : Nat} (h : pos + n ≤ m)
    (ht : l'.take m = l.take m) : bufRead l' pos n = bufRead l pos n := by
  rw [← bufRead_take l' m pos n h, ht, bufRead_take l m pos n h]

theorem scanFromPos_eq_none (rootBuf : List Nat) :
    ∀ fuel i0, (∀ k, i0 ≤ k → k < i0 + fuel → dirEntryMatch rootBuf k = false) →
      scanFromPos rootBuf fuel i0 = none := by
  intro fuel
  induction fuel with
  | zero => intro i0 _; rfl
  | succ f ih =>
    intro i0 h
    unfold scanFromPos
    rw [h i0 le_rfl (by omega)]
    simpa using ih (i0 + 1) (fun k hk1 hk2 => h k (by omega) (by omega))

theorem scanFromPos_eq_some (rootBuf : List Nat) :
    ∀ fuel i0 i, i0 ≤ i → i < i0 + fuel → dirEntryMatch rootBuf i = true →
      (∀ k, i0 ≤ k → k < i → dirEntryMatch rootBuf k = false) →
      scanFromPos rootBuf fuel i0 = some i := by
  intro fuel
  induction fuel with
  | zero => intro i0 i h1 h2 _ _; omega
  | succ f ih =>
    intro i0 i h1 h2 h3 h4
    unfold scanFromPos
    by_cases hc : i0 = i
    · subst hc
      rw [h3]
      simp
    · rw [h4 i0 le_rfl (by omega)]
      simpa using ih (i0 + 1) i (by omega) (by omega) h3
        (fun k hk1 hk2 => h4 k (by omega) hk2)

theorem scanEntries_complete (buf : List Nat) :
    ∀ n pos acc, pos + 8 * n ≤ buf.length →
      scanEntries buf n pos acc = .ok (lastMatchFrom buf n pos acc) := by
  intro n
  induction n with
  | zero => intro pos acc _; rfl
  | succ m ih =>
    intro pos acc h
    unfold scanEntries lastMatchFrom
    simp only [be32?_of_le (show pos + 4 ≤ buf.length by omega),
      be32?_of_le (show pos + 4 + 4 ≤ buf.length by omega)]
    by_cases hc : be32 (bufRead buf pos 4) = execution_info_table_flags
    · rw [if_pos hc, if_pos hc]
      exact ih (pos + 8) _ (by omega)
    · rw [if_neg hc, if_neg hc, posAfterL_of_le (by omega)]
      exact ih (pos + 8) _ (by omega)

theorem lastMatchFrom_of_no_match (buf : List Nat) :
    ∀ n pos acc,
      (∀ i, i < n → be32 (bufRead buf (pos + 8 * i) 4) ≠ execution_info_table_flags) →
      lastMatchFrom buf n pos acc = acc := by
  intro n
  induction n with
  | zero => intro pos acc _; rfl
  | succ m ih =>
    intro pos acc h
    unfold lastMatchFrom
    have h0 : be32 (bufRead buf pos 4) ≠ execution_info_table_flags := by
      have := h 0 (by omega)
      simpa using this
    rw [if_neg h0]
    exact ih (pos + 8) acc (fun i hi => by
      have := h (i + 1) (by omega)
      have harith : pos + 8 * (i + 1) = pos + 8 + 8 * i := by omega
      rwa [harith] at this)

theorem lastMatchFrom_last (buf : List Nat) :
    ∀ n pos acc j, j < n →
      be32 (bufRead buf (pos + 8 * j) 4) = execution_info_table_flags →
      (∀ k, j < k → k < n → be32 (bufRead buf (pos + 8 * k) 4) ≠ execution_info_table_flags) →
      lastMatchFrom buf n pos acc = some (be32 (bufRead buf (pos + 8 * j + 4) 4)) := by
  intro n
  induction n with
  | zero => intro pos acc j hj _ _; omega
  | succ m ih =>
    intro pos acc j hj hmatch hlast
    unfold lastMatchFrom
    match j with
    | 0 =>
      simp only [Nat.mul_zero, Nat.add_zero] at hmatch
      rw [if_pos hmatch]
      rw [lastMatchFrom_of_no_match buf m (pos + 8) _ (fun i hi => by
        have := hlast (i + 1) (by omega) (by omega)
        have harith : pos + 8 * (i + 1) = pos + 8 + 8 * i := by omega
        rwa [harith] at this)]
    | j' + 1 =>
      have step := ih (pos + 8) (if be32 (bufRead buf pos 4) = execution_info_table_flags
          then some (be32 (bufRead buf (pos + 4) 4)) else acc) j' (by omega)
        (by have harith : pos + 8 + 8 * j' = pos + 8 * (j' + 1) := by omega
            rwa [harith])
        (fun k hk1 hk2 => by
          have := hlast (k + 1) (by omega) (by omega)
          have harith : pos + 8 * (k + 1) = pos + 8 + 8 * k := by omega
          rwa [harith] at this)
      rw [step]
      have harith : pos + 8 + 8 * j' + 4 = pos + 8 * (j' + 1) + 4 := by omega
      rw [harith]

theorem decodeExecInfo_ne_notfound (buf : List Nat) (addr : Nat) :
    decodeExecInfo buf addr ≠ .error .ExecutionInfoNotFound := by
  unfold decodeExecInfo
  cases h1 : be32? (bufRead buf (posAfterL buf addr 4) 4) with
  | none => simp [h1]
  | some v1 =>
    cases h2 : be32? (bufRead buf (posAfterL buf addr 4 + 4) 4) with
    | none => simp [h1, h2]
    | some v2 =>
      cases h3 : byte1? (bufRead buf (posAfterL buf (posAfterL buf addr 4 + 8) 4) 1) with
      | none => simp [h1, h2, h3]
      | some v3 =>
        cases h4 : byte1? (bufRead buf (posAfterL buf (posAfterL buf addr 4 + 8) 4 + 1) 1) with
        | none => simp [h1, h2, h3, h4]
        | some v4 =>
          cases h5 : byte1? (bufRead buf (posAfterL buf (posAfterL buf addr 4 + 8) 4 + 2) 1) with
          | none => simp [h1, h2, h3, h4, h5]
          | some v5 =>
            cases h6 : byte1? (bufRead buf (posAfterL buf (posAfterL buf addr 4 + 8) 4 + 3) 1) <;>
              simp [h1, h2, h3, h4, h5, h6]

theorem extract_xex_info_eq_scan (objSize : Nat) (buf : List Nat) (co ce n : Nat)
    (hmagic : decodeAsciiIgnore (bufRead buf 0 4) = "XEX2")
    (hco : be32? (bufRead buf 0x08 4) = some co)
    (hsize : ¬ co > objSize)
    (hce : be32? (bufRead buf 0x10 4) = some ce)
    (hcert : ¬ ce > co)
    (hn : be32? (bufRead buf 0x14 4) = some n)
    (hov : ¬ n * 8 + 24 > co) :
    extract_xex_info objSize buf =
      match scanEntries buf n 0x18 none with
      | .error e => .error e
      | .ok none => .error .ExecutionInfoNotFound
      | .ok (some addr) => decodeExecInfo buf addr := by
  simp [extract_xex_info, hmagic, hco, hce, hn, hsize, hcert, hov]

/-! ## Claims -/

/-- C1: for every byte source whose legacy-offset region (sector 0x20 at
base offset 0) decodes to the 20-byte magic string, container detection
fails with `UnsupportedLegacyFormat` — `detect_root_offset` and the whole of
`check_iso` return that failure, with no hypothesis on (hence regardless of)
the content at the GDF and XGD3 offsets, and no fall-through to the other
probes. -/
theorem check_iso_legacy_rejected (s : ByteSource)
    (h : magicAt s iso_type_XSF = true) :
    detect_root_offset s = .error .UnsupportedLegacyFormat ∧
    check_iso s = .error .UnsupportedLegacyFormat := by
  have hd : detect_root_offset s = .error .UnsupportedLegacyFormat := by
    simp [detect_root_offset, h]
  refine ⟨hd, ?_⟩
  unfold check_iso
  rw [hd]

/-- Witness for C1 on a concrete image carrying the magic at the legacy
offset and at the GDF offset: detection still rejects it as legacy. -/
theorem check_iso_legacy_rejected_witness :
    magicAt srcLegacyAndGDF iso_type_XSF = true ∧
    magicAt srcLegacyAndGDF iso_type_GDF = true ∧
    check_iso srcLegacyAndGDF = .error .UnsupportedLegacyFormat :=
  ⟨by decide, by decide, (check_iso_legacy_rejected srcLegacyAndGDF (by decide)).2⟩

/-- C2: for every byte source that does not match the magic at the legacy
offset, the probe order is GDF then XGD3: a GDF match returns base offset
0xFD90000 (regardless of the XGD3 region), otherwise an XGD3 match returns
0x2080000, otherwise detection fails with `UnknownContainerFormat`. -/
theorem detect_root_offset_probe_order (s : ByteSource)
    (hxsf : magicAt s iso_type_XSF = false) :
    (magicAt s iso_type_GDF = true → detect_root_offset s = .ok 0xfd90000) ∧
    (magicAt s iso_type_GDF = false → magicAt s iso_type_XGD3 = true →
      detect_root_offset s = .ok 0x2080000) ∧
    (magicAt s iso_type_GDF = false → magicAt s iso_type_XGD3 = false →
      detect_root_offset s = .error .UnknownContainerFormat) := by
  refine ⟨fun hg => ?_, fun hg hx => ?_, fun hg hx => ?_⟩
  · show detect_root_offset s = .ok iso_type_GDF
    simp [detect_root_offset, hxsf, hg]
  · show detect_root_offset s = .ok iso_type_XGD3
    simp [detect_root_offset, hxsf, hg, hx]
  · simp [detect_root_offset, hxsf, hg, hx]

/-- Witness for C2 on concrete images: with the magic at both the GDF and
XGD3 offsets the earlier GDF probe wins; with it only at XGD3, the XGD3
offset is returned; with it nowhere, detection reports an unknown format. -/
theorem detect_root_offset_probe_order_witness :
    detect_root_offset srcGDFAndXGD3 = .ok 0xfd90000 ∧
    detect_root_offset srcXGD3Only = .ok 0x2080000 ∧
    detect_root_offset srcNoMagic = .error .UnknownContainerFormat :=
  ⟨(detect_root_offset_probe_order srcGDFAndXGD3 (by decide)).1 (by decide),
   (detect_root_offset_probe_order srcXGD3Only (by decide)).2.1 (by decide) (by decide),
   (detect_root_offset_probe_order srcNoMagic (by decide)).2.2 (by decide) (by decide)⟩

/-- C3: executable-header validation.  With the magic check and the
object-size check passed, a decoded `cert_offset` greater than `code_offset`
makes `extract_xex_info` fail with `CertOffsetInvalid`, and the result is
the same for any buffer agreeing on the first 20 bytes — the bytes read up
to and including the failing check, so no further reads influence the
outcome.  With `cert_offset` in range, a decoded entry count with
`count * 8 + 24 > code_offset` fails with `HeaderTableOverflow`, again
determined by the first 24 bytes alone.  (All buffer reads in the model are
clamped slices, so no access outside the buffer bounds exists.) -/
theorem extract_xex_info_validation (objSize : Nat) (buf buf' : List Nat) (co ce n : Nat)
    (hmagic : decodeAsciiIgnore (bufRead buf 0 4) = "XEX2")
    (hco : be32? (bufRead buf 0x08 4) = some co)
    (hsize : ¬ co > objSize) :
    (be32? (bufRead buf 0x10 4) = some ce → ce > co →
      extract_xex_info objSize buf = .error .CertOffsetInvalid ∧
      (buf'.take 20 = buf.take 20 →
        extract_xex_info objSize buf' = .error .CertOffsetInvalid)) ∧
    (be32? (bufRead buf 0x10 4) = some ce → ¬ ce > co →
      be32? (bufRead buf 0x14 4) = some n → n * 8 + 24 > co →
      extract_xex_info objSize buf = .error .HeaderTableOverflow ∧
      (buf'.take 24 = buf.take 24 →
        extract_xex_info objSize buf' = .error .HeaderTableOverflow)) := by
  constructor
  · intro hce hcert
    constructor
    · simp [extract_xex_info, hmagic, hco, hce, hsize, hcert]
    · intro ht
      have e0 := bufRead_congr (show 0 + 4 ≤ 20 by omega) ht
      have e8 := bufRead_congr (show 0x08 + 4 ≤ 20 by omega) ht
      have e16 := bufRead_congr (show 0x10 + 4 ≤ 20 by omega) ht
      simp [extract_xex_info, e0, e8, e16, hmagic, hco, hce, hsize, hcert]
  · intro hce hcert hn hov
    constructor
    · simp [extract_xex_info, hmagic, hco, hce, hn, hsize, hcert, hov]
    · intro ht
      have e0 := bufRead_congr (show 0 + 4 ≤ 24 by omega) ht
      have e8 := bufRead_congr (show 0x08 + 4 ≤ 24 by omega) ht
      have e16 := bufRead_congr (show 0x10 + 4 ≤ 24 by omega) ht
      have e20 := bufRead_congr (show 0x14 + 4 ≤ 24 by omega) ht
      simp [extract_xex_info, e0, e8, e16, e20, hmagic, hco, hce, hn, hsize, hcert, hov]

/-- Witness for C3: a 24-byte XEX2 header with `cert_offset = 0x200` above
`code_offset = 0x100` fails with `CertOffsetInvalid`; one with
`code_offset = 0x20` and 4 table entries (`4 * 8 + 24 = 56 > 0x20`) fails
with `HeaderTableOverflow`. -/
theorem extract_xex_info_validation_witness :
    extract_xex_info 0x1000 xexBufBadCert = .error .CertOffsetInvalid ∧
    extract_xex_info 0x1000 xexBufOverflow = .error .HeaderTableOverflow :=
  ⟨((extract_xex_info_validation 0x1000 xexBufBadCert xexBufBadCert 0x100 0x200 0
      (by decide) (by decide) (by decide)).1 (by decide) (by decide)).1,
   ((extract_xex_info_validation 0x1000 xexBufOverflow xexBufOverflow 0x20 0x10 4
      (by decide) (by decide) (by decide)).2 (by decide) (by decide) (by decide) (by decide)).1⟩

/-- C4 counterexample: `xexBufTruncTable` passes every validation check
(magic `XEX2`, `code_offset = 0x40` below the object size 150,
`cert_offset = 0 ≤ 0x40`, `2 * 8 + 24 = 40 ≤ 0x40`) and no record of its
table carries the id 0x00040006 — the table is not there at all: the buffer
ends at offset 24.  The validation checks compare the entry count against
`code_offset`, not against the buffer length (the line 129 size check uses
`sys.getsizeof`, a memory footprint exceeding the content length by object
overhead), so the first table read `unpack('>I', read(4))` hits the end of
the buffer and raises `struct.error` (modelled `IOError`): the scan does not
visit `header_entry_count` records and the failure is not
`ExecutionInfoNotFound`, refuting the claim as frozen. -/
theorem extract_xex_info_truncated_table_counterexample :
    decodeAsciiIgnore (bufRead xexBufTruncTable 0 4) = "XEX2" ∧
    be32? (bufRead xexBufTruncTable 0x08 4) = some 0x40 ∧
    ¬ (0x40 : Nat) > 150 ∧
    be32? (bufRead xexBufTruncTable 0x10 4) = some 0 ∧
    be32? (bufRead xexBufTruncTable 0x14 4) = some 2 ∧
    ¬ 2 * 8 + 24 > (0x40 : Nat) ∧
    extract_xex_info 150 xexBufTruncTable = .error .IOError ∧
    extract_xex_info 150 xexBufTruncTable ≠ .error .ExecutionInfoNotFound := by
  have he : extract_xex_info 150 xexBufTruncTable = .error .IOError := rfl
  exact ⟨by decide, by decide, by decide, by decide, by decide, by decide, he,
    by rw [he]; simp⟩

/-- C4 (amended): for every buffer passing header validation *whose entry
table additionally lies inside the buffer* (`24 + 8 * count ≤ length` — the
condition the counterexample shows the validation checks do not guarantee,
since the line 129 size check compares against `sys.getsizeof`, not the
content length), the table scan is exactly the `header_entry_count`-record
fold `lastMatchFrom` over 8-byte records starting at offset 24 (the scan is
a structurally recursive function, hence terminating), and when no record
carries the id 0x00040006 the parser fails with `ExecutionInfoNotFound`. -/
theorem extract_xex_info_table_scan (objSize : Nat) (buf : List Nat) (co ce n : Nat)
    (hmagic : decodeAsciiIgnore (bufRead buf 0 4) = "XEX2")
    (hco : be32? (bufRead buf 0x08 4) = some co)
    (hsize : ¬ co > objSize)
    (hce : be32? (bufRead buf 0x10 4) = some ce)
    (hcert : ¬ ce > co)
    (hn : be32? (bufRead buf 0x14 4) = some n)
    (hov : ¬ n * 8 + 24 > co)
    (hlen : 0x18 + 8 * n ≤ buf.length) :
    extract_xex_info objSize buf =
      (match lastMatchFrom buf n 0x18 none with
       | none => .error .ExecutionInfoNotFound
       | some addr => decodeExecInfo buf addr) ∧
    ((∀ i, i < n → be32 (bufRead buf (0x18 + 8 * i) 4) ≠ execution_info_table_flags) →
      extract_xex_info objSize buf = .error .ExecutionInfoNotFound) := by
  have hmain : extract_xex_info objSize buf =
      (match lastMatchFrom buf n 0x18 none with
       | none => .error .ExecutionInfoNotFound
       | some addr => decodeExecInfo buf addr) := by
    rw [extract_xex_info_eq_scan objSize buf co ce n hmagic hco hsize hce hcert hn hov,
      scanEntries_complete buf n 0x18 none (by omega)]
    cases lastMatchFrom buf n 0x18 none <;> rfl
  refine ⟨hmain, fun hno => ?_⟩
  rw [hmain, lastMatchFrom_of_no_match buf n 0x18 none hno]

/-- Witness for the amended C4: a valid header whose in-bounds table holds
two entries, neither carrying the target id, fails with
`ExecutionInfoNotFound`. -/
theorem extract_xex_info_table_scan_witness :
    extract_xex_info 0x1000 xexBufNoExecEntry = .error .ExecutionInfoNotFound :=
  (extract_xex_info_table_scan 0x1000 xexBufNoExecEntry 0x100 0x20 2
    (by decide) (by decide) (by decide) (by decide) (by decide) (by decide) (by decide)
    (by decide)).2 (by intro i hi; interval_cases i <;> decide)

/-- C9: for every buffer passing header validation whose entry table holds
two records with id 0x00040006 at indices `i < j` (with `j` the last match),
the scan does not stop at the first one: the execution-info offset used for
decoding is the value paired with the last matching record `j`. -/
theorem extract_xex_info_last_match_wins (objSize : Nat) (buf : List Nat) (co ce n i j : Nat)
    (hmagic : decodeAsciiIgnore (bufRead buf 0 4) = "XEX2")
    (hco : be32? (bufRead buf 0x08 4) = some co)
    (hsize : ¬ co > objSize)
    (hce : be32? (bufRead buf 0x10 4) = some ce)
    (hcert : ¬ ce > co)
    (hn : be32? (bufRead buf 0x14 4) = some n)
    (hov : ¬ n * 8 + 24 > co)
    (hlen : 0x18 + 8 * n ≤ buf.length)
    (_hij : i < j) (hjn : j < n)
    (_hi : be32 (bufRead buf (0x18 + 8 * i) 4) = execution_info_table_flags)
    (hj : be32 (bufRead buf (0x18 + 8 * j) 4) = execution_info_table_flags)
    (hlast : ∀ k, j < k → k < n →
      be32 (bufRead buf (0x18 + 8 * k) 4) ≠ execution_info_table_flags) :
    extract_xex_info objSize buf = decodeExecInfo buf (be32 (bufRead buf (0x18 + 8 * j + 4) 4)) := by
  rw [extract_xex_info_eq_scan objSize buf co ce n hmagic hco hsize hce hcert hn hov,
    scanEntries_complete buf n 0x18 none (by omega),
    lastMatchFrom_last buf n 0x18 none j hjn hj hlast]

/-- Witness for C9: a header with three entries whose first and third carry
the target id (values 0x30 and 0x40): decoding happens at 0x40, yielding
title id 4D5307D1 rather than the 00000000 stored at 0x30. -/
theorem extract_xex_info_last_match_wins_witness :
    extract_xex_info 0x1000 xexBufTwoExecEntries =
      decodeExecInfo xexBufTwoExecEntries 0x40 ∧
    extract_xex_info 0x1000 xexBufTwoExecEntries =
      .ok { media_id := "AABBCCDD", version := 5, base_version := 3,
            title_id := "4D5307D1", platform := 2, executable_type := 1,
            disc_number := 1, disc_count := 2 } :=
  ⟨extract_xex_info_last_match_wins 0x1000 xexBufTwoExecEntries 0x100 0x20 3 0 2
    (by decide) (by decide) (by decide) (by decide) (by decide) (by decide) (by decide)
    (by decide) (by decide) (by decide) (by decide) (by decide) (by omega),
   by rfl⟩

/-- C10: a table record `(0x00040006, 0)` is accepted: the Python sentinel
test `execution_info_address is not False` does not identify the integer 0
with `False`, so the parser decodes the 20-byte execution-info record at
buffer offset 0 instead of failing with `ExecutionInfoNotFound`. -/
theorem extract_xex_info_zero_address_accepted (objSize : Nat) (buf : List Nat) (co ce n j : Nat)
    (hmagic : decodeAsciiIgnore (bufRead buf 0 4) = "XEX2")
    (hco : be32? (bufRead buf 0x08 4) = some co)
    (hsize : ¬ co > objSize)
    (hce : be32? (bufRead buf 0x10 4) = some ce)
    (hcert : ¬ ce > co)
    (hn : be32? (bufRead buf 0x14 4) = some n)
    (hov : ¬ n * 8 + 24 > co)
    (hlen : 0x18 + 8 * n ≤ buf.length)
    (hjn : j < n)
    (hj : be32 (bufRead buf (0x18 + 8 * j) 4) = execution_info_table_flags)
    (hval : be32 (bufRead buf (0x18 + 8 * j + 4) 4) = 0)
    (hlast : ∀ k, j < k → k < n →
      be32 (bufRead buf (0x18 + 8 * k) 4) ≠ execution_info_table_flags) :
    extract_xex_info objSize buf = decodeExecInfo buf 0 ∧
    extract_xex_info objSize buf ≠ .error .ExecutionInfoNotFound := by
  have hmain : extract_xex_info objSize buf = decodeExecInfo buf 0 := by
    rw [extract_xex_info_eq_scan objSize buf co ce n hmagic hco hsize hce hcert hn hov,
      scanEntries_complete buf n 0x18 none (by omega),
      lastMatchFrom_last buf n 0x18 none j hjn hj hlast, hval]
  exact ⟨hmain, hmain ▸ decodeExecInfo_ne_notfound buf 0⟩

/-- Witness for C10: a single-entry header carrying `(0x00040006, 0)` is
decoded at offset 0 — `media_id` comes out as the hex of the magic `XEX2`
itself — with no `ExecutionInfoNotFound` failure. -/
theorem extract_xex_info_zero_address_accepted_witness :
    extract_xex_info 0x1000 xexBufZeroAddr = decodeExecInfo xexBufZeroAddr 0 ∧
    extract_xex_info 0x1000 xexBufZeroAddr ≠ .error .ExecutionInfoNotFound ∧
    extract_xex_info 0x1000 xexBufZeroAddr =
      .ok { media_id := "58455832", version := 0, base_version := 256,
            title_id := "00000000", platform := 0, executable_type := 0,
            disc_number := 0, disc_count := 32 } :=
  ⟨(extract_xex_info_zero_address_accepted 0x1000 xexBufZeroAddr 0x100 0x20 1 0
      (by decide) (by decide) (by decide) (by decide) (by decide) (by decide) (by decide)
      (by decide) (by decide) (by decide) (by decide) (by omega)).1,
   (extract_xex_info_zero_address_accepted 0x1000 xexBufZeroAddr 0x100 0x20 1 0
      (by decide) (by decide) (by decide) (by decide) (by decide) (by decide) (by decide)
      (by decide) (by decide) (by decide) (by decide) (by omega)).2,
   by rfl⟩

theorem dirEntryMatch_lt (rootBuf : List Nat) (i : Nat)
    (hm : dirEntryMatch rootBuf i = true) : i + 1 < rootBuf.length := by
  by_contra hge
  unfold dirEntryMatch at hm
  rw [List.getD_eq_default _ _ (by omega)] at hm
  simp at hm

/-- C6 counterexample: a 13-byte root-directory region whose first scan
match is at position 0 (byte 1 is the length 11, bytes 2-12 spell
`default.xex`).  The claim says the scanner returns the two little-endian
u32 fields located 8 bytes before the match, but position 0 has no such
bytes: Python executes `seek(-8)`, raising `ValueError`, and the scan fails
(modelled as `IOError`) instead of returning fields. -/
theorem findDirEntry_match_at_zero_counterexample :
    dirEntryMatch rootBufMatchAt0 0 = true ∧
    findDirEntry rootBufMatchAt0 13 = .error .IOError :=
  ⟨by decide, by rfl⟩

/-- C6 (amended): the scanner examines positions linearly from the start;
with no match within `root_dir_size - 12` positions it fails with
`EntryNotFound`; a first match at position `i < 8` aborts with an `IOError`
(negative seek); a first match at `i ≥ 8` returns `data_sector` and
`data_size` as the little-endian u32 values at `i - 8` and `i - 4`. -/
theorem findDirEntry_spec (rootBuf : List Nat) (rds : Nat) :
    ((∀ k, k < rds - 12 → dirEntryMatch rootBuf k = false) →
      findDirEntry rootBuf rds = .error .EntryNotFound) ∧
    (∀ i, i < rds - 12 → dirEntryMatch rootBuf i = true →
      (∀ k, k < i → dirEntryMatch rootBuf k = false) → i < 8 →
      findDirEntry rootBuf rds = .error .IOError) ∧
    (∀ i, i < rds - 12 → dirEntryMatch rootBuf i = true →
      (∀ k, k < i → dirEntryMatch rootBuf k = false) → 8 ≤ i →
      findDirEntry rootBuf rds =
        .ok (le32 (bufRead rootBuf (i - 8) 4), le32 (bufRead rootBuf (i - 4) 4))) := by
  refine ⟨fun hno => ?_, fun i hi hm hfirst hlt => ?_, fun i hi hm hfirst hge => ?_⟩
  · have hscan := scanFromPos_eq_none rootBuf (rds - 12) 0
      (fun k _ hk2 => hno k (by omega))
    simp only [findDirEntry, hscan]
  · have hscan := scanFromPos_eq_some rootBuf (rds - 12) 0 i (by omega) (by omega) hm
      (fun k _ hk2 => hfirst k hk2)
    simp only [findDirEntry, hscan]
    rw [if_pos hlt]
  · have hscan := scanFromPos_eq_some rootBuf (rds - 12) 0 i (by omega) (by omega) hm
      (fun k _ hk2 => hfirst k hk2)
    have hlen := dirEntryMatch_lt rootBuf i hm
    simp only [findDirEntry, hscan,
      le32?_of_le (show i - 8 + 4 ≤ rootBuf.length by omega),
      le32?_of_le (show i - 4 + 4 ≤ rootBuf.length by omega)]
    rw [if_neg (by omega)]

/-- Witness for the amended C6: a 32-byte region with its first match at
position 8 yields `data_sector = 1` and `data_size = 100` from the
little-endian fields at bytes 0 and 4; an all-zero region of 20 bytes is
scanned to the end and fails with `EntryNotFound`. -/
theorem findDirEntry_spec_witness :
    findDirEntry rootBufMatchAt8 32 = .ok (1, 100) ∧
    findDirEntry (List.replicate 20 0) 20 = .error .EntryNotFound :=
  ⟨(findDirEntry_spec rootBufMatchAt8 32).2.2 8 (by decide) (by decide)
      (by intro k hk; interval_cases k <;> decide) (by decide),
   (findDirEntry_spec (List.replicate 20 0) 20).1
      (by intro k hk; interval_cases k <;> decide)⟩

/-- C7 counterexample: on `srcShortFile` the directory entry decodes
`data_size = 100` but only 0 bytes are available at
`base_offset + data_sector * sector_size = 0x800` (the image is 32 bytes
long); `extract_defaultxex` returns the empty buffer with no failure,
whereas the claim requires an `IOError` instead of a short buffer. -/
theorem extract_defaultxex_short_read_counterexample :
    findDirEntry (rootBufOf srcShortFile infoShortFile) 21 = .ok (1, 100) ∧
    extract_defaultxex srcShortFile infoShortFile = .ok ([] : List Nat) :=
  ⟨by rfl, by rfl⟩

/-- C7 (amended): once the directory entry `(data_sector, data_size)` is
located, the extractor seeks to `base_offset + data_sector * sector_size`
and returns whatever prefix of `data_size` bytes is available —
`min data_size (remaining bytes)` — as an owned buffer, with no error on a
short read. -/
theorem extract_defaultxex_reads_available (s : ByteSource) (info : IsoInfo) (fs sz : Nat)
    (h : findDirEntry (rootBufOf s info) info.root_dir_size = .ok (fs, sz)) :
    extract_defaultxex s info =
      .ok (readBytes s (info.root_offset + fs * info.sector_size) sz) ∧
    (readBytes s (info.root_offset + fs * info.sector_size) sz).length =
      min sz (s.size - (info.root_offset + fs * info.sector_size)) := by
  constructor
  · simp only [extract_defaultxex, h]
  · exact readBytes_length s (info.root_offset + fs * info.sector_size) sz

/-- Witness for the amended C7 at the concrete short image: the extractor
returns the available prefix (here empty, since sector 1 lies past EOF). -/
theorem extract_defaultxex_reads_available_witness :
    extract_defaultxex srcShortFile infoShortFile =
      .ok (readBytes srcShortFile (0 + 1 * 0x800) 100) ∧
    (readBytes srcShortFile (0 + 1 * 0x800) 100).length = min 100 (32 - (0 + 1 * 0x800)) :=
  extract_defaultxex_reads_available srcShortFile infoShortFile 1 100 (by rfl)

/-- C8: the pipeline is total — for every input exactly one of the four
cases holds: a failing `check_iso`, `extract_defaultxex` or
`extract_xex_info` stage with `parse` returning the explicit absence `none`
(every Python exception inside the stages is modelled as an error result,
mirroring the `try`/`except` in `parse` that converts any uncaught
exception to `None`), or all stages succeeding with `parse` returning the
record of every container field, every execution-info field, and
`game_name` resolved from the lookup with default `"Unknown"`. -/
theorem parse_result_contract (gsz : List Nat → Nat) (lookup : String → Option String)
    (s : ByteSource) :
    (∃ e, check_iso s = .error e ∧ parse gsz lookup s = none) ∨
    (∃ info e, check_iso s = .ok info ∧ extract_defaultxex s info = .error e ∧
      parse gsz lookup s = none) ∨
    (∃ info buf e, check_iso s = .ok info ∧ extract_defaultxex s info = .ok buf ∧
      extract_xex_info (gsz buf) buf = .error e ∧ parse gsz lookup s = none) ∨
    (∃ info buf xex, check_iso s = .ok info ∧ extract_defaultxex s info = .ok buf ∧
      extract_xex_info (gsz buf) buf = .ok xex ∧
      parse gsz lookup s =
        some { iso := info, xex := xex,
               game_name := (lookup xex.title_id).getD "Unknown" }) := by
  cases h1 : check_iso s with
  | error e => exact Or.inl ⟨e, rfl, by simp only [parse, h1]⟩
  | ok info =>
    cases h2 : extract_defaultxex s info with
    | error e =>
      exact Or.inr (Or.inl ⟨info, e, rfl, h2, by simp only [parse, h1, h2]⟩)
    | ok buf =>
      cases h3 : extract_xex_info (gsz buf) buf with
      | error e =>
        exact Or.inr (Or.inr (Or.inl ⟨info, buf, e, rfl, h2, h3,
          by simp only [parse, h1, h2, h3]⟩))
      | ok xex =>
        exact Or.inr (Or.inr (Or.inr ⟨info, buf, xex, rfl, h2, h3,
          by simp only [parse, h1, h2, h3]⟩))

theorem decodeExecInfo_spec (buf : List Nat) (addr : Nat) (h : addr + 20 ≤ buf.length) :
    decodeExecInfo buf addr = .ok
      { media_id := toHexUpper (bufRead buf addr 4)
        version := be32 (bufRead buf (addr + 4) 4)
        base_version := be32 (bufRead buf (addr + 8) 4)
        title_id := toHexUpper (bufRead buf (addr + 12) 4)
        platform := (bufRead buf (addr + 16) 1).getD 0 0
        executable_type := (bufRead buf (addr + 17) 1).getD 0 0
        disc_number := (bufRead buf (addr + 18) 1).getD 0 0
        disc_count := (bufRead buf (addr + 19) 1).getD 0 0 } := by
  simp only [decodeExecInfo]
  rw [posAfterL_of_le (show addr + 4 ≤ buf.length by omega)]
  rw [posAfterL_of_le (show addr + 4 + 8 + 4 ≤ buf.length by omega)]
  simp only [be32?_of_le (show addr + 4 + 4 ≤ buf.length by omega),
    be32?_of_le (show addr + 4 + 4 + 4 ≤ buf.length by omega),
    byte1?_of_le (show addr + 4 + 8 + 4 + 1 ≤ buf.length by omega),
    byte1?_of_le (show addr + 4 + 8 + 4 + 1 + 1 ≤ buf.length by omega),
    byte1?_of_le (show addr + 4 + 8 + 4 + 2 + 1 ≤ buf.length by omega),
    byte1?_of_le (show addr + 4 + 8 + 4 + 3 + 1 ≤ buf.length by omega)]

set_option maxHeartbeats 4000000 in
/-- C5: round-trip of written field values through the parser.  First, for
every buffer and every in-bounds execution-info offset, the decoder
reproduces exactly the bytes written there: `media_id` and `title_id` as the
uppercase hex of their four bytes, `version` / `base_version` as the
big-endian u32 of their bytes, and the four trailing single-byte fields as
the literal bytes.  Second, the claim's concrete scenario end to end: on the
synthetic GDF container `mkImage ...` whose XEX2 file has magic `XEX2`,
`code_offset = 0x100`, `cert_offset = 0x20`, one table entry
`(0x00040006, 0x40)` and execution-info bytes at 0x40 encoding title id
4D5307D1, the full pipeline returns `title_id = "4D5307D1"` (and every other
written value) with no error — under the one unavoidable hypothesis that the
`getsizeof` model does not undercut the 0x100 code offset, since
`sys.getsizeof` is a memory-footprint value. -/
theorem parse_roundtrip (gsz : List Nat → Nat) (lookup : String → Option String)
    (buf : List Nat) (addr : Nat) (haddr : addr + 20 ≤ buf.length)
    (hsize : ¬ 0x100 >
      gsz (xexFileC5 0xAA 0xBB 0xCC 0xDD 0 0 0 5 0 0 0 3 0x4D 0x53 0x07 0xD1 2 1 1 2)) :
    decodeExecInfo buf addr = .ok
      { media_id := toHexUpper (bufRead buf addr 4)
        version := be32 (bufRead buf (addr + 4) 4)
        base_version := be32 (bufRead buf (addr + 8) 4)
        title_id := toHexUpper (bufRead buf (addr + 12) 4)
        platform := (bufRead buf (addr + 16) 1).getD 0 0
        executable_type := (bufRead buf (addr + 17) 1).getD 0 0
        disc_number := (bufRead buf (addr + 18) 1).getD 0 0
        disc_count := (bufRead buf (addr + 19) 1).getD 0 0 } ∧
    parse gsz lookup (mkImage 0xAA 0xBB 0xCC 0xDD 0 0 0 5 0 0 0 3 0x4D 0x53 0x07 0xD1 2 1 1 2) =
      some { iso := isoInfoC5
             xex := { media_id := "AABBCCDD", version := 5, base_version := 3,
                      title_id := "4D5307D1", platform := 2, executable_type := 1,
                      disc_number := 1, disc_count := 2 }
             game_name := (lookup "4D5307D1").getD "Unknown" } := by
  refine ⟨decodeExecInfo_spec buf addr haddr, ?_⟩
  have h1 : check_iso (mkImage 0xAA 0xBB 0xCC 0xDD 0 0 0 5 0 0 0 3 0x4D 0x53 0x07 0xD1 2 1 1 2)
      = .ok isoInfoC5 := by rfl
  have h2 : extract_defaultxex
        (mkImage 0xAA 0xBB 0xCC 0xDD 0 0 0 5 0 0 0 3 0x4D 0x53 0x07 0xD1 2 1 1 2) isoInfoC5
      = .ok (xexFileC5 0xAA 0xBB 0xCC 0xDD 0 0 0 5 0 0 0 3 0x4D 0x53 0x07 0xD1 2 1 1 2) := by rfl
  have h3 : extract_xex_info
        (gsz (xexFileC5 0xAA 0xBB 0xCC 0xDD 0 0 0 5 0 0 0 3 0x4D 0x53 0x07 0xD1 2 1 1 2))
        (xexFileC5 0xAA 0xBB 0xCC 0xDD 0 0 0 5 0 0 0 3 0x4D 0x53 0x07 0xD1 2 1 1 2)
      = if 0x100 >
            gsz (xexFileC5 0xAA 0xBB 0xCC 0xDD 0 0 0 5 0 0 0 3 0x4D 0x53 0x07 0xD1 2 1 1 2)
        then .error .CodeOffsetBeyondSize
        else .ok { media_id := "AABBCCDD", version := 5, base_version := 3,
                   title_id := "4D5307D1", platform := 2, executable_type := 1,
                   disc_number := 1, disc_count := 2 } := by rfl
  rw [if_neg hsize] at h3
  simp only [parse, h1, h2, h3]

/-- Witness for C5 at the concrete scenario: the execution-info record of
the synthetic XEX2 file decodes to the written values, and the full pipeline
on the synthetic image yields the record with `title_id = "4D5307D1"`. -/
theorem parse_roundtrip_witness :
    decodeExecInfo (xexFileC5 0xAA 0xBB 0xCC 0xDD 0 0 0 5 0 0 0 3 0x4D 0x53 0x07 0xD1 2 1 1 2)
        0x40 =
      .ok { media_id := "AABBCCDD", version := 5, base_version := 3,
            title_id := "4D5307D1", platform := 2, executable_type := 1,
            disc_number := 1, disc_count := 2 } ∧
    parse (fun _ => 0x1000) (fun _ => none)
        (mkImage 0xAA 0xBB 0xCC 0xDD 0 0 0 5 0 0 0 3 0x4D 0x53 0x07 0xD1 2 1 1 2) =
      some { iso := isoInfoC5
             xex := { media_id := "AABBCCDD", version := 5, base_version := 3,
                      title_id := "4D5307D1", platform := 2, executable_type := 1,
                      disc_number := 1, disc_count := 2 }
             game_name := "Unknown" } := by
  have h := parse_roundtrip (fun _ => 0x1000) (fun _ => none)
    (xexFileC5 0xAA 0xBB 0xCC 0xDD 0 0 0 5 0 0 0 3 0x4D 0x53 0x07 0xD1 2 1 1 2) 0x40
    (by decide) (by decide)
  exact ⟨h.1, h.2⟩
